import Mathlib

/-
Verification of the guide-normalization pipeline and phase orchestrator of the
report-builder backend (src/backend/app). Python functions are shallowly
embedded as executable Lean definitions; external collaborators (DOCX/PDF text
extraction, the LLM, the memory store) are passed as explicit parameters or
modelled as abstract outcomes, and Python exceptions are modelled with Except.
-/

/-- Python exception kinds that the embedded code can raise. -/
inductive PyError where
  | typeError
  | valueError
  | keyError
deriving DecidableEq, Repr

/-- Opening-brace character (written via its code point). -/
def lbrace : Char := Char.ofNat 123

/-- Closing-brace character (written via its code point). -/
def rbrace : Char := Char.ofNat 125

/-- Single-quote character (written via its code point). -/
def squote : Char := Char.ofNat 39

/-- String consisting of one single-quote character. -/
def apos : String := String.mk [squote]

/-- Python regex \s restricted to ASCII: space, tab, newline, carriage return,
vertical tab, form feed. -/
def isPySpace (c : Char) : Bool :=
  c = ' ' || c = '\t' || c = '\n' || c = '\r' || c = Char.ofNat 11 || c = Char.ofNat 12

/-- Replace the last element of a list, if any (models mutating the object the
Python code's current-chapter/section/subsection pointer refers to, which is
always the most recently appended one). -/
def modifyLast (f : α → α) : List α → List α
  | [] => []
  | [a] => [f a]
  | a :: b :: rest => a :: modifyLast f (b :: rest)

/-- Update the first element satisfying p (models SQLAlchemy query(...).first()
followed by attribute assignment and commit); leaves the list unchanged when no
element matches. -/
def updateFirst (p : α → Bool) (f : α → α) : List α → List α
  | [] => []
  | a :: rest => if p a then f a :: rest else a :: updateFirst p f rest

/-- Model of Python str.strip() (restricted to ASCII whitespace): drop leading
and trailing whitespace. -/
def pyStrip (s : String) : String :=
  String.mk (((s.data.dropWhile isPySpace).reverse.dropWhile isPySpace).reverse)

/-- Model of Python str.lower() (ASCII case folding). -/
def pyLower (s : String) : String :=
  String.mk (s.data.map Char.toLower)

/-- Split a character list at every occurrence of a separator character
(model of Python str.split(sep) for a one-character separator). -/
def splitOnChar (c : Char) : List Char → List (List Char)
  | [] => [[]]
  | x :: rest =>
    match splitOnChar c rest with
    | acc :: accs => if x = c then [] :: acc :: accs else (x :: acc) :: accs
    | [] => [[]]

/-- Model of Python str.split(sep) for a one-character separator string. -/
def pySplit (s : String) (c : Char) : List String :=
  (splitOnChar c s.data).map String.mk

/-- Model of Python sep.join(strings) for a one-character separator. -/
def pyJoin (c : Char) (parts : List String) : String :=
  match parts with
  | [] => ""
  | p :: rest => rest.foldl (fun acc q => acc ++ String.mk [c] ++ q) p

/-- Prefix test on character lists. -/
def isPrefixChars : List Char → List Char → Bool
  | [], _ => true
  | _ :: _, [] => false
  | n :: ns, c :: cs => n = c && isPrefixChars ns cs

/-- Occurrence test on character lists: does the needle occur anywhere? -/
def containsChars (needle : List Char) : List Char → Bool
  | [] => needle.isEmpty
  | c :: rest => isPrefixChars needle (c :: rest) || containsChars needle rest

/-- Model of Python's substring test `needle in s`. -/
def strContainsSub (s needle : String) : Bool :=
  containsChars needle.data s.data

/-- Numeric value of a list of ASCII digits. -/
def digitsToNat (ds : List Char) : Nat :=
  ds.foldl (fun acc c => acc * 10 + (c.toNat - 48)) 0

/-- Model of Python int(str) on base-10 literals: optional surrounding
whitespace, optional sign, one or more ASCII digits (digit-group underscores
are not modelled). Returns none where int() raises ValueError. -/
def pyInt? (s : String) : Option Int :=
  let t := pyStrip s
  let (neg, ds) :=
    match t.data with
    | c :: rest => if c = '-' then (true, rest) else if c = '+' then (false, rest) else (false, t.data)
    | [] => (false, ([] : List Char))
  if ds ≠ [] ∧ ds.all Char.isDigit then
    some (if neg then -(digitsToNat ds : Int) else (digitsToNat ds : Int))
  else none

/-- JSON values, as produced by json.loads. Numbers are modelled as integers
only (the guide-parsing code never manipulates fractional numbers); inputs with
fractional or exponent notation are treated as unparseable by this model. -/
inductive Json where
  | null
  | bool (b : Bool)
  | num (n : Int)
  | str (s : String)
  | arr (xs : List Json)
  | obj (fields : List (String × Json))

/-- Python truthiness of a JSON value: empty containers, empty strings, zero,
False and None are falsy. -/
def jsonTruthy : Json → Bool
  | .null => false
  | .bool b => b
  | .num n => n ≠ 0
  | .str s => s ≠ ""
  | .arr xs => !xs.isEmpty
  | .obj fs => !fs.isEmpty

/-- Insert a member into an assembled JSON object the way Python dicts built by
json.loads behave: a repeated key keeps only the last occurrence. -/
def objInsert (fs : List (String × Json)) (k : String) (v : Json) : List (String × Json) :=
  fs.filter (fun p => p.1 ≠ k) ++ [(k, v)]

/-- Parse a JSON string body after the opening quote: returns the decoded
characters and the remaining input after the closing quote. Handles the
standard escapes and \xHH-free \uXXXX code points (surrogate pairs are not
combined); rejects unescaped control characters, as json.loads does. -/
def parseJsonString (fuel : Nat) (cs : List Char) : Option (List Char × List Char) :=
  match fuel with
  | 0 => none
  | fuel + 1 =>
    match cs with
    | [] => none
    | c :: rest =>
      if c = '"' then some ([], rest)
      else if c = '\\' then
        match rest with
        | [] => none
        | e :: rest2 =>
          let dec : Option Char :=
            if e = '"' then some '"'
            else if e = '\\' then some '\\'
            else if e = '/' then some '/'
            else if e = 'b' then some (Char.ofNat 8)
            else if e = 'f' then some (Char.ofNat 12)
            else if e = 'n' then some '\n'
            else if e = 'r' then some '\r'
            else if e = 't' then some '\t'
            else none
          match dec with
          | some d =>
            match parseJsonString fuel rest2 with
            | some (out, rem) => some (d :: out, rem)
            | none => none
          | none =>
            if e = 'u' then
              match rest2 with
              | h1 :: h2 :: h3 :: h4 :: rest3 =>
                let hex? (h : Char) : Option Nat :=
                  if h.isDigit then some (h.toNat - 48)
                  else if 'a' ≤ h ∧ h ≤ 'f' then some (h.toNat - 87)
                  else if 'A' ≤ h ∧ h ≤ 'F' then some (h.toNat - 55)
                  else none
                match hex? h1, hex? h2, hex? h3, hex? h4 with
                | some a, some b, some c', some d =>
                  match parseJsonString fuel rest3 with
                  | some (out, rem) => some (Char.ofNat (((a * 16 + b) * 16 + c') * 16 + d) :: out, rem)
                  | none => none
                | _, _, _, _ => none
              | _ => none
            else none
      else if c.toNat < 32 then none
      else
        match parseJsonString fuel rest with
        | some (out, rem) => some (c :: out, rem)
        | none => none

/-- Parse a JSON integer literal: optional minus, digits without a superfluous
leading zero. Fractions and exponents make the whole parse fail (see Json). -/
def parseJsonNumber (cs : List Char) : Option (Int × List Char) :=
  let (neg, body) :=
    match cs with
    | '-' :: rest => (true, rest)
    | _ => (false, cs)
  let ds := body.takeWhile Char.isDigit
  let rest := body.dropWhile Char.isDigit
  if ds.isEmpty then none
  else if ds.length > 1 ∧ ds.headD '0' = '0' then none
  else
    match rest with
    | '.' :: _ => none
    | 'e' :: _ => none
    | 'E' :: _ => none
    | _ => some (if neg then -(digitsToNat ds : Int) else (digitsToNat ds : Int), rest)

/-- Drop JSON whitespace. -/
def skipJsonWs (cs : List Char) : List Char :=
  cs.dropWhile (fun c => c = ' ' || c = '\t' || c = '\n' || c = '\r')

mutual

/-- Recursive-descent JSON value parser (model of the grammar json.loads
accepts, integer numbers only). -/
def parseJsonVal (fuel : Nat) (cs : List Char) : Option (Json × List Char) :=
  match fuel with
  | 0 => none
  | fuel + 1 =>
    let cs := skipJsonWs cs
    match cs with
    | [] => none
    | c :: rest =>
      if c = '"' then
        match parseJsonString (rest.length + 1) rest with
        | some (body, rem) => some (.str (String.mk body), rem)
        | none => none
      else if c = '[' then
        let rest2 := skipJsonWs rest
        match rest2 with
        | ']' :: rem => some (.arr [], rem)
        | _ =>
          match parseJsonArrItems fuel rest with
          | some (xs, rem) => some (.arr xs, rem)
          | none => none
      else if c = lbrace then
        let rest2 := skipJsonWs rest
        match rest2 with
        | r :: rem =>
          if r = rbrace then some (.obj [], rem)
          else
            match parseJsonObjItems fuel rest [] with
            | some (fs, rem2) => some (.obj fs, rem2)
            | none => none
        | [] => none
      else
        match cs with
        | 't' :: 'r' :: 'u' :: 'e' :: rem => some (.bool true, rem)
        | 'f' :: 'a' :: 'l' :: 's' :: 'e' :: rem => some (.bool false, rem)
        | 'n' :: 'u' :: 'l' :: 'l' :: rem => some (.null, rem)
        | _ =>
          match parseJsonNumber cs with
          | some (n, rem) => some (.num n, rem)
          | none => none

/-- Parse one-or-more comma-separated array items up to the closing bracket. -/
def parseJsonArrItems (fuel : Nat) (cs : List Char) : Option (List Json × List Char) :=
  match fuel with
  | 0 => none
  | fuel + 1 =>
    match parseJsonVal fuel cs with
    | none => none
    | some (v, rem) =>
      let rem := skipJsonWs rem
      match rem with
      | ']' :: rem2 => some ([v], rem2)
      | ',' :: rem2 =>
        match parseJsonArrItems fuel rem2 with
        | some (vs, rem3) => some (v :: vs, rem3)
        | none => none
      | _ => none

/-- Parse one-or-more comma-separated object members up to the closing brace. -/
def parseJsonObjItems (fuel : Nat) (cs : List Char) (acc : List (String × Json)) :
    Option (List (String × Json) × List Char) :=
  match fuel with
  | 0 => none
  | fuel + 1 =>
    let cs := skipJsonWs cs
    match cs with
    | '"' :: rest =>
      match parseJsonString (rest.length + 1) rest with
      | none => none
      | some (key, rem) =>
        let rem := skipJsonWs rem
        match rem with
        | ':' :: rem2 =>
          match parseJsonVal fuel rem2 with
          | none => none
          | some (v, rem3) =>
            let acc := objInsert acc (String.mk key) v
            let rem3 := skipJsonWs rem3
            match rem3 with
            | c :: rem4 =>
              if c = rbrace then some (acc, rem4)
              else if c = ',' then parseJsonObjItems fuel rem4 acc
              else none
            | [] => none
        | _ => none
    | _ => none

end

/-- Model of json.loads on a string: a single JSON value with nothing but
whitespace around it. -/
def jsonParse (s : String) : Option Json :=
  match parseJsonVal (s.length + 1) s.data with
  | some (v, rem) => if skipJsonWs rem = [] then some v else none
  | none => none

/-- Identifier characters of the bare-key regex ([a-zA-Z0-9_]). -/
def isIdentChar (c : Char) : Bool :=
  c.isUpper || c.isLower || c.isDigit || c = '_'

/-- Scanner for re.sub(r',\s*C', 'C', text) with C a closing brace or bracket:
left-to-right, non-overlapping, replacement text not rescanned. The fuel is the
input length, which the wrapper supplies; every step consumes at least one
character, so the fuel never runs out. -/
def fixTrailingGo (close : Char) (fuel : Nat) (cs : List Char) : List Char :=
  match fuel, cs with
  | 0, cs => cs
  | _, [] => []
  | fuel + 1, c :: rest =>
    if c = ',' then
      match rest.dropWhile isPySpace with
      | c2 :: t =>
        if c2 = close then close :: fixTrailingGo close fuel t
        else c :: fixTrailingGo close fuel rest
      | [] => c :: fixTrailingGo close fuel rest
    else c :: fixTrailingGo close fuel rest

/-- Model of re.sub(r',\s*\x7d', '\x7d', text) from _sanitize_json. -/
def fixTrailingCommaBrace (s : String) : String :=
  String.mk (fixTrailingGo rbrace s.length s.data)

/-- Model of re.sub(r',\s*]', ']', text) from _sanitize_json. -/
def fixTrailingCommaBracket (s : String) : String :=
  String.mk (fixTrailingGo ']' s.length s.data)

/-- Scanner for re.sub(r'([\x7b,])\s*([a-zA-Z0-9_]+)\s*:', r'\1"\2":', text):
after an opening brace or comma, an optionally-space-padded bare identifier
followed by a colon is rewritten to the quoted identifier (the padding is
dropped, as in the replacement template). -/
def quoteBareKeysGo (fuel : Nat) (cs : List Char) : List Char :=
  match fuel, cs with
  | 0, cs => cs
  | _, [] => []
  | fuel + 1, c :: rest =>
    if c = lbrace || c = ',' then
      let r1 := rest.dropWhile isPySpace
      let ident := r1.takeWhile isIdentChar
      let r2 := (r1.dropWhile isIdentChar).dropWhile isPySpace
      match ident, r2 with
      | _ :: _, ':' :: t =>
        c :: '"' :: (ident ++ '"' :: ':' :: quoteBareKeysGo fuel t)
      | _, _ => c :: quoteBareKeysGo fuel rest
    else c :: quoteBareKeysGo fuel rest

/-- Model of the unquoted-key repair stage of _sanitize_json. -/
def quoteBareKeys (s : String) : String :=
  String.mk (quoteBareKeysGo s.length s.data)

/-- Scanner for re.sub(r"'(.*?)'", r'"\1"', text): the lazy dot does not cross
newlines, so a quote pairs with the nearest following quote on the same line;
both are replaced by double quotes. -/
def fixSingleQuotesGo (fuel : Nat) (cs : List Char) : List Char :=
  match fuel, cs with
  | 0, cs => cs
  | _, [] => []
  | fuel + 1, c :: rest =>
    if c = squote then
      let body := rest.takeWhile (fun x => x ≠ squote && x ≠ '\n')
      match rest.dropWhile (fun x => x ≠ squote && x ≠ '\n') with
      | x :: t =>
        if x = squote then '"' :: (body ++ '"' :: fixSingleQuotesGo fuel t)
        else c :: fixSingleQuotesGo fuel rest
      | [] => c :: fixSingleQuotesGo fuel rest
    else c :: fixSingleQuotesGo fuel rest

/-- Model of the quote-normalization stage of _sanitize_json. -/
def fixSingleQuotes (s : String) : String :=
  String.mk (fixSingleQuotesGo s.length s.data)

/-- Model of the text[start:end+1] brace-trimming prologue of _sanitize_json:
slice from the first opening brace to the last closing brace when both exist
(an end index before the start index yields the empty slice, as in Python). -/
def trimToBraces (s : String) : String :=
  let cs := s.data
  match cs.findIdx? (· = lbrace), (cs.reverse.findIdx? (· = rbrace)) with
  | some i, some jr =>
    let j := cs.length - 1 - jr
    String.mk ((cs.drop i).take (j + 1 - i))
  | _, _ => s

/-- Embeds _sanitize_json (src/backend/app/services/llm/guide_parser.py,
lines 182-229): strip, trim to the outer braces, attempt a parse; on failure
apply the three repair stages in sequence and re-attempt the parse exactly
once, after the final stage; re-raise the decode error if that also fails. -/
def _sanitize_json (text : String) : Except String Json :=
  let text := pyStrip text
  let text := trimToBraces text
  match jsonParse text with
  | some j => .ok j
  | none =>
    let text := fixTrailingCommaBrace text
    let text := fixTrailingCommaBracket text
    let text := quoteBareKeys text
    let text := fixSingleQuotes text
    match jsonParse text with
    | some j => .ok j
    | none => .error "JSONDecodeError"

/-- Modelled from the spec: the sanitizer of §4.1 as the spec describes it,
re-attempting the parse after each repair stage and returning as soon as a
parse succeeds. Written only to compare against _sanitize_json. -/
def sanitizeJsonStagedSpec (text : String) : Except String Json :=
  let t0 := trimToBraces (pyStrip text)
  match jsonParse t0 with
  | some j => .ok j
  | none =>
    let t1 := fixTrailingCommaBracket (fixTrailingCommaBrace t0)
    match jsonParse t1 with
    | some j => .ok j
    | none =>
      let t2 := quoteBareKeys t1
      match jsonParse t2 with
      | some j => .ok j
      | none =>
        let t3 := fixSingleQuotes t2
        match jsonParse t3 with
        | some j => .ok j
        | none => .error "JSONDecodeError"

/-- Match a literal character sequence at the head of the input, returning the
remainder on success. -/
def matchLit : List Char → List Char → Option (List Char)
  | [], cs => some cs
  | _ :: _, [] => none
  | l :: ls, c :: cs => if c = l then matchLit ls cs else none

/-- Match one-or-more ASCII digits at the head, returning the remainder. -/
def matchDigits1 (cs : List Char) : Option (List Char) :=
  if (cs.takeWhile Char.isDigit).isEmpty then none else some (cs.dropWhile Char.isDigit)

/-- Match one-or-more whitespace characters at the head, returning the
remainder. -/
def matchWs1 (cs : List Char) : Option (List Char) :=
  if (cs.takeWhile isPySpace).isEmpty then none else some (cs.dropWhile isPySpace)

/-- Head of the remainder satisfies a predicate. -/
def headSat (p : Char → Bool) (cs : List Char) : Bool :=
  match cs with
  | c :: _ => p c
  | [] => false

/-- re.match r'^chapter\s+\d+'. -/
def chapterPat1 (cs : List Char) : Bool :=
  (do
    let r ← matchLit "chapter".data cs
    let r ← matchWs1 r
    if headSat Char.isDigit r then some () else none).isSome

/-- re.match r'^\d+\.\s+[A-Z]'. -/
def chapterPat2 (cs : List Char) : Bool :=
  (do
    let r ← matchDigits1 cs
    let r ← matchLit ['.'] r
    let r ← matchWs1 r
    if headSat Char.isUpper r then some () else none).isSome

/-- re.match r'^[IVX]+\.\s+'. -/
def chapterPat3 (cs : List Char) : Bool :=
  let roman := cs.takeWhile (fun c => c = 'I' || c = 'V' || c = 'X')
  let rest := cs.dropWhile (fun c => c = 'I' || c = 'V' || c = 'X')
  !roman.isEmpty &&
    (do
      let r ← matchLit ['.'] rest
      let _ ← matchWs1 r
      some ()).isSome

/-- re.match r'^[A-Z\s]{5,}$': the whole line consists of uppercase letters and
whitespace and has at least five characters. -/
def chapterPat4 (cs : List Char) : Bool :=
  cs.length ≥ 5 && cs.all (fun c => c.isUpper || isPySpace c)

/-- Any chapter-heading pattern of parse_text_to_guide_structure. -/
def isChapterPats (cs : List Char) : Bool :=
  chapterPat1 cs || chapterPat2 cs || chapterPat3 cs || chapterPat4 cs

/-- re.match r'^\d+\.\d+\.?\s+' (after backtracking, the optional dot is taken
only when whitespace follows it). -/
def secPat1 (cs : List Char) : Bool :=
  (do
    let r ← matchDigits1 cs
    let r ← matchLit ['.'] r
    let r ← matchDigits1 r
    match r with
    | '.' :: r2 => if headSat isPySpace r2 || headSat isPySpace r then some () else none
    | _ => if headSat isPySpace r then some () else none).isSome

/-- re.match r'^section\s+\d+'. -/
def secPat2 (cs : List Char) : Bool :=
  (do
    let r ← matchLit "section".data cs
    let r ← matchWs1 r
    if headSat Char.isDigit r then some () else none).isSome

/-- re.match r'^[A-Z][a-z]+\s+\d+'. -/
def secPat3 (cs : List Char) : Bool :=
  match cs with
  | c :: r =>
    c.isUpper &&
      !(r.takeWhile Char.isLower).isEmpty &&
      ((do
        let r2 ← matchWs1 (r.dropWhile Char.isLower)
        if headSat Char.isDigit r2 then some () else none).isSome)
  | [] => false

/-- re.match r'^\([a-z]\)'. -/
def secPat4 (cs : List Char) : Bool :=
  match cs with
  | '(' :: c :: ')' :: _ => c.isLower
  | _ => false

/-- Any section-heading pattern of parse_text_to_guide_structure. -/
def isSectionPats (cs : List Char) : Bool :=
  secPat1 cs || secPat2 cs || secPat3 cs || secPat4 cs

/-- re.match r'^\d+\.\d+\s+' (second operand of the is_section disjunction). -/
def secPatNN (cs : List Char) : Bool :=
  (do
    let r ← matchDigits1 cs
    let r ← matchLit ['.'] r
    let r ← matchDigits1 r
    if headSat isPySpace r then some () else none).isSome

/-- re.match r'^\d+\.\d+\.\d+\.?\s+'. -/
def subPat1 (cs : List Char) : Bool :=
  (do
    let r ← matchDigits1 cs
    let r ← matchLit ['.'] r
    let r ← matchDigits1 r
    let r ← matchLit ['.'] r
    let r ← matchDigits1 r
    match r with
    | '.' :: r2 => if headSat isPySpace r2 || headSat isPySpace r then some () else none
    | _ => if headSat isPySpace r then some () else none).isSome

/-- re.match r'^[a-z]\)\s+'. -/
def subPat2 (cs : List Char) : Bool :=
  match cs with
  | c :: ')' :: r => c.isLower && headSat isPySpace r
  | _ => false

/-- re.match r'^\d+\)\s+'. -/
def subPat3 (cs : List Char) : Bool :=
  (do
    let r ← matchDigits1 cs
    let r ← matchLit [')'] r
    let _ ← matchWs1 r
    some ()).isSome

/-- re.match r'^•\s+'. -/
def subPat4 (cs : List Char) : Bool :=
  match cs with
  | c :: r => c = Char.ofNat 8226 && headSat isPySpace r
  | [] => false

/-- Any subsection-heading pattern of parse_text_to_guide_structure. -/
def isSubPats (cs : List Char) : Bool :=
  subPat1 cs || subPat2 cs || subPat3 cs || subPat4 cs

/-- re.match r'^\d+\.\d+\.\d+\s+' (second operand of the is_subsection
disjunction). -/
def subPatNNN (cs : List Char) : Bool :=
  (do
    let r ← matchDigits1 cs
    let r ← matchLit ['.'] r
    let r ← matchDigits1 r
    let r ← matchLit ['.'] r
    let r ← matchDigits1 r
    if headSat isPySpace r then some () else none).isSome

/-- Subsection of a Guide section, as built by parse_text_to_guide_structure. -/
structure MSub where
  title : String
  requirements : String
deriving DecidableEq, Repr

/-- Section of a Guide chapter. An absent "subsections" key is represented by
the empty list (the post-pass deletes the key exactly when the list is
empty). -/
structure MSection where
  title : String
  requirements : String
  subsections : List MSub
deriving DecidableEq, Repr

/-- Chapter of a Guide. -/
structure MChapter where
  title : String
  sections : List MSection
deriving DecidableEq, Repr

/-- Canonical Guide document (guide_json). -/
structure Guide where
  title : String
  chapters : List MChapter
deriving DecidableEq, Repr

/-- Accumulation state of the heuristic parser: the chapters built so far and
the content buffer. The Python current-chapter/current-section/
current-subsection pointers always denote the most recently appended chapter,
its last section, and that section's last subsection; they are reset to None
exactly when a fresh (empty) enclosing object is created, so they are derivable
as the last elements of the nested lists. -/
structure HeurState where
  chapters : List MChapter
  buffer : List String
deriving DecidableEq, Repr

/-- The derived current_section pointer: the last section of the last chapter,
if any. -/
def curSection? (st : HeurState) : Option MSection :=
  st.chapters.getLast?.bind (fun ch => ch.sections.getLast?)

/-- The derived current_subsection pointer: the last subsection of the current
section, if any. -/
def curSub? (st : HeurState) : Option MSub :=
  (curSection? st).bind (fun s => s.subsections.getLast?)

/-- Embeds save_current_content (session.py lines 286-296): join the buffer
with newlines and assign it to the requirements of the deepest open level;
content with no open section or subsection is dropped. The buffer is cleared in
every case. -/
def saveCurrentContent (st : HeurState) : HeurState :=
  if st.buffer.isEmpty then st
  else
    let contentText := pyJoin '\n' st.buffer
    let st0 : HeurState := { st with buffer := [] }
    if (curSub? st).isSome then
      { st0 with chapters := modifyLast (fun ch =>
          { ch with sections := modifyLast (fun s =>
              { s with subsections := modifyLast (fun sub =>
                  { sub with requirements := contentText }) s.subsections }) ch.sections }) st0.chapters }
    else if (curSection? st).isSome then
      { st0 with chapters := modifyLast (fun ch =>
          { ch with sections := modifyLast (fun s =>
              { s with requirements := contentText }) ch.sections }) st0.chapters }
    else st0

/-- Embeds the per-line classification and dispatch of
parse_text_to_guide_structure (session.py lines 299-356), including the
first-five-lines chapter bootstrap and the operator precedence of the Python
boolean expressions (is_section is true for any line matching r'^\d+\.\d+\s+'
even when is_chapter holds, but the chapter branch is tested first). -/
def heurStep (st : HeurState) (i : Nat) (line : String) : HeurState :=
  let cs := line.data
  let isChapter := isChapterPats cs ||
    (decide (i < 5) && decide (line.length < 60) && st.chapters.isEmpty)
  let isSection := (!isChapter && isSectionPats cs) || secPatNN cs
  let isSubsection := (!isChapter && !isSection && isSubPats cs) || subPatNNN cs
  if isChapter then
    let st := saveCurrentContent st
    { st with chapters := st.chapters ++ [{ title := line, sections := [] }] }
  else if isSection && !st.chapters.isEmpty then
    let st := saveCurrentContent st
    { st with chapters := modifyLast (fun ch =>
        { ch with sections := ch.sections ++ [{ title := line, requirements := "", subsections := [] }] }) st.chapters }
  else if isSubsection && (curSection? st).isSome then
    let st := saveCurrentContent st
    { st with chapters := modifyLast (fun ch =>
        { ch with sections := modifyLast (fun s =>
            { s with subsections := s.subsections ++ [{ title := line, requirements := "" }] }) ch.sections }) st.chapters }
  else
    { st with buffer := st.buffer ++ [line] }

/-- Iterate heurStep over the lines with their indices. -/
def heurRun (lines : List String) : HeurState :=
  (lines.enum.foldl (fun st p => heurStep st p.1 p.2) { chapters := [], buffer := [] })

/-- Embeds the single-subsection collapse of the post-pass (session.py lines
372-383): a section with subsections and blank own requirements absorbs its
only subsection; an empty subsections list is deleted (a no-op in this
representation). -/
def postSection (s : MSection) : MSection :=
  if !s.subsections.isEmpty ∧ pyStrip s.requirements = "" then
    if s.subsections.length = 1 then
      { s with requirements := (s.subsections.headD { title := "", requirements := "" }).requirements,
               subsections := [] }
    else s
  else s

/-- Embeds the chapter post-pass (session.py lines 362-383): a chapter with no
sections gets one placeholder section titled by the chapter title's first word
(when the title contains a space), then each section is collapsed. -/
def postChapter (ch : MChapter) : MChapter :=
  let secs :=
    if ch.sections.isEmpty then
      let sectionTitle :=
        if strContainsSub ch.title " " then (pySplit ch.title ' ').headD ch.title
        else ch.title
      [{ title := sectionTitle, requirements := "Please provide content for this section.",
         subsections := ([] : List MSub) }]
    else ch.sections
  { ch with sections := secs.map postSection }

/-- Embeds parse_text_to_guide_structure (session.py lines 241-403) on an
actual character string: split into stripped non-empty lines, classify and
accumulate, final flush, post-pass, and the one-chapter default when nothing
was recognized. -/
def parseTextToGuideCore (text : String) : Guide :=
  let lines := ((pySplit text '\n').map pyStrip).filter (fun l => l ≠ "")
  let guideTitle := match lines with | [] => "Report Guide" | l :: _ => l
  let st := saveCurrentContent (heurRun lines)
  let chapters := st.chapters.map postChapter
  let chapters :=
    if chapters.isEmpty then
      [{ title := "Chapter 1",
         sections := [{ title := "Section 1",
                        requirements := "Please provide content for this section.",
                        subsections := ([] : List MSub) }] }]
    else chapters
  { title := guideTitle, chapters := chapters }

/-- UTF-8 encode a string (model of str.encode). -/
def utf8Encode (s : String) : List Nat :=
  s.data.foldr (fun c acc =>
    let n := c.toNat
    if n < 0x80 then n :: acc
    else if n < 0x800 then (0xC0 + n / 64) :: (0x80 + n % 64) :: acc
    else if n < 0x10000 then (0xE0 + n / 4096) :: (0x80 + n / 64 % 64) :: (0x80 + n % 64) :: acc
    else (0xF0 + n / 262144) :: (0x80 + n / 4096 % 64) :: (0x80 + n / 64 % 64) :: (0x80 + n % 64) :: acc) []

/-- UTF-8 decode a byte list (model of bytes.decode("utf-8")): none on invalid
sequences (continuation-byte errors, overlong forms, surrogates, out-of-range
code points). -/
def utf8Decode (fuel : Nat) (bs : List Nat) : Option (List Char) :=
  match fuel, bs with
  | _, [] => some []
  | 0, _ => none
  | fuel + 1, b :: rest =>
    let cont (n : Nat) : Bool := 0x80 ≤ n ∧ n ≤ 0xBF
    if b < 0x80 then (utf8Decode fuel rest).map (Char.ofNat b :: ·)
    else if 0xC2 ≤ b ∧ b ≤ 0xDF then
      match rest with
      | b2 :: rest2 =>
        if cont b2 then (utf8Decode fuel rest2).map (Char.ofNat ((b - 0xC0) * 64 + (b2 - 0x80)) :: ·)
        else none
      | _ => none
    else if 0xE0 ≤ b ∧ b ≤ 0xEF then
      match rest with
      | b2 :: b3 :: rest2 =>
        let cp := (b - 0xE0) * 4096 + (b2 - 0x80) * 64 + (b3 - 0x80)
        if cont b2 ∧ cont b3 ∧ cp ≥ 0x800 ∧ ¬(0xD800 ≤ cp ∧ cp ≤ 0xDFFF) then
          (utf8Decode fuel rest2).map (Char.ofNat cp :: ·)
        else none
      | _ => none
    else if 0xF0 ≤ b ∧ b ≤ 0xF4 then
      match rest with
      | b2 :: b3 :: b4 :: rest2 =>
        let cp := (b - 0xF0) * 262144 + (b2 - 0x80) * 4096 + (b3 - 0x80) * 64 + (b4 - 0x80)
        if cont b2 ∧ cont b3 ∧ cont b4 ∧ cp ≥ 0x10000 ∧ cp ≤ 0x10FFFF then
          (utf8Decode fuel rest2).map (Char.ofNat cp :: ·)
        else none
      | _ => none
    else none

/-- Model of json.loads on bytes: UTF-8 decode, then parse. -/
def jsonLoadsBytes (bs : List Nat) : Option Json :=
  (utf8Decode bs.length bs).bind (fun cs => jsonParse (String.mk cs))

/-- A Python value that is either text or bytes, used where the code passes a
value whose runtime type decides the behaviour. -/
inductive PyVal where
  | str (s : String)
  | bytes (b : List Nat)
deriving DecidableEq, Repr

/-- External binary-format extraction capabilities used by
extract_text_from_file: the python-docx and PyPDF2 readers, which return text
or fail. -/
structure Collaborators where
  docxExtract : List Nat → Except String String
  pdfExtract : List Nat → Except String String

/-- Byte prefix test (bytes.startswith). -/
def bytesStartWith (pre bs : List Nat) : Bool :=
  List.isPrefixOf pre bs

/-- The b'PK' zip signature. -/
def pkSig : List Nat := [80, 75]

/-- The b'%PDF' signature. -/
def pdfSig : List Nat := [37, 80, 68, 70]

/-- Embeds the second definition of extract_text_from_file (session.py lines
406-458) — the one in scope, since it shadows the earlier str-returning
definition. Every branch returns bytes: DOCX and PDF text is re-encoded with
str.encode('utf-8'), and unrecognized content is returned as the original
bytes without decoding. Extraction failures raise ValueError. -/
def extract_text_from_file (ext : Collaborators) (content : List Nat) :
    Except PyError (List Nat) :=
  if bytesStartWith pkSig content then
    match ext.docxExtract content with
    | .ok text => .ok (utf8Encode text)
    | .error _ => .error .valueError
  else if bytesStartWith pdfSig content then
    match ext.pdfExtract content with
    | .ok text => .ok (utf8Encode text)
    | .error _ => .error .valueError
  else .ok content

/-- Embeds parse_text_to_guide_structure (session.py lines 241-403) as called
at runtime: its first statement evaluates text.split('\n') with a str
separator, which raises TypeError when text is bytes. -/
def parse_text_to_guide_structure (text : PyVal) : Except PyError Guide :=
  match text with
  | .str s => .ok (parseTextToGuideCore s)
  | .bytes _ => .error .typeError

/-- Result of parse_guide_file: either the raw json.loads value (returned
unchecked for non-binary JSON input) or a Guide built by the heuristic
parser. -/
inductive GuideVal where
  | fromJson (j : Json)
  | fromGuide (g : Guide)

/-- Embeds parse_guide_file (session.py lines 461-506): detect binary
signatures, try json.loads for non-binary content, otherwise extract text and
run the heuristic parser; any exception from that path is re-raised as
ValueError. -/
def parse_guide_file (ext : Collaborators) (content : List Nat) :
    Except PyError GuideVal :=
  let isBinary := bytesStartWith pdfSig content || bytesStartWith pkSig content
  let direct : Option Json := if isBinary then none else jsonLoadsBytes content
  match direct with
  | some j => .ok (.fromJson j)
  | none =>
    match extract_text_from_file ext content with
    | .error _ => .error .valueError
    | .ok bs =>
      match parse_text_to_guide_structure (.bytes bs) with
      | .error _ => .error .valueError
      | .ok g => .ok (.fromGuide g)

/-- Persisted section record restricted to the mapped columns that the
orchestrator reads and writes. The Section model (app/db/models/section.py)
declares session_id, chapter_idx, section_idx, status, draft_html and
saved_at; session_id is fixed by the ledger, and draft_html/saved_at are not
touched by the phase handlers (execution.py assigns a transient .content
attribute, which is not a column). -/
structure SectionRow where
  chapter_idx : Nat
  section_idx : Nat
  status : String
deriving DecidableEq, Repr

/-- The per-session section ledger, in database order. -/
abbrev Ledger := List SectionRow

/-- Embeds the section-id parse `chapter_idx, section_idx = map(int,
section_id.split('.'))`: exactly two dot-separated int literals, else
ValueError (modelled as none). -/
def sectionIdToIdx (section_id : String) : Option (Int × Int) :=
  match pySplit section_id '.' with
  | [a, b] =>
    match pyInt? a, pyInt? b with
    | some x, some y => some (x, y)
    | _, _ => none
  | _ => none

/-- Row match for the query filter on (chapter_idx, section_idx). -/
def rowMatches (c s : Int) (r : SectionRow) : Bool :=
  (Int.ofNat r.chapter_idx = c) && (Int.ofNat r.section_idx = s)

/-- Embeds save_draft_to_database (execution.py lines 181-212): parse the
section id, find the first matching row and set its status to "draft"
(the generated content goes to the transient .content attribute, not to a
column); any failure is caught and leaves the ledger unchanged. -/
def save_draft_to_database (ledger : Ledger) (section_id : String) (content : String) : Ledger :=
  let _ := content
  match sectionIdToIdx section_id with
  | none => ledger
  | some (c, s) => updateFirst (rowMatches c s) (fun r => { r with status := "draft" }) ledger

/-- Embeds mark_section_complete (reflection.py lines 130-165): parse the
section id, set the first matching row's status to "complete" and report
whether a row was found; failures (including an unparseable id) return
false with the ledger unchanged. -/
def mark_section_complete (ledger : Ledger) (section_id : String) : Ledger × Bool :=
  match sectionIdToIdx section_id with
  | none => (ledger, false)
  | some (c, s) =>
    if ledger.any (rowMatches c s) then
      (updateFirst (rowMatches c s) (fun r => { r with status := "complete" }) ledger, true)
    else (ledger, false)

/-- Embeds save_section (section_service.py lines 111-138): set the row's
status to "saved" (and its saved_at timestamp, not modelled), reporting
whether the row exists. -/
def save_section (ledger : Ledger) (ci si : Nat) : Ledger × Bool :=
  let p := fun (r : SectionRow) => (r.chapter_idx = ci) && (r.section_idx = si)
  if ledger.any p then (updateFirst p (fun r => { r with status := "saved" }) ledger, true)
  else (ledger, false)

/-- Attribute names of the mapped Section class (app/db/models/section.py):
its six declared columns plus the is_saved property and the save method. -/
def sectionModelAttrs : List String :=
  ["session_id", "chapter_idx", "section_idx", "status", "draft_html", "saved_at",
   "is_saved", "save"]

/-- The keyword-argument names _initialize_sections passes to the Section
constructor (session_service.py lines 155-162). -/
def sectionCtorKwargs : List String :=
  ["session_id", "chapter_idx", "section_idx", "title", "content", "status"]

/-- Modelled from the spec and the SQLAlchemy contract: the repository's
declarative Base (app/db/base_class.py) is not under src; the spec's
SectionRecord (§3) carries only the key, status, draft content and saved_at
fields, and SQLAlchemy's default declarative constructor — which a plain Base
uses — accepts only keyword arguments that are attributes of the mapped class
and raises TypeError for any other name. -/
def sectionModelNew (ci si : Nat) (status : String) : Except PyError SectionRow :=
  if sectionCtorKwargs.all (fun k => sectionModelAttrs.contains k) then
    .ok { chapter_idx := ci, section_idx := si, status := status }
  else .error .typeError

/-- Embeds the loop body of _initialize_sections: construct and add one row per
guide section in order; the surrounding bare `except` swallows the first
exception, keeping only the rows added before it. -/
def initSectionsLoop : List (Nat × Nat × MSection) → List SectionRow → List SectionRow
  | [], acc => acc
  | (ci, si, _) :: rest, acc =>
    match sectionModelNew ci si "pending" with
    | .ok r => initSectionsLoop rest (acc ++ [r])
    | .error _ => acc

/-- Embeds _initialize_sections (session_service.py lines 136-165), the bulk
Section Ledger initialization run by create_session. -/
def _init_sections (guide : Guide) : List SectionRow :=
  let pairs := guide.chapters.enum.flatMap (fun p =>
    p.2.sections.enum.map (fun q => (p.1, q.1, q.2)))
  initSectionsLoop pairs []

/-- Modelled from the spec: Section Ledger initialization as §3 describes it —
one pending record per (chapter_idx, section_idx) pair of the Guide, in Guide
order. Written only to compare against _init_sections. -/
def specInitSectionPairs (guide : Guide) : List (Nat × Nat) :=
  guide.chapters.enum.flatMap (fun p => p.2.sections.enum.map (fun q => (p.1, q.1)))

/-- Embeds find_next_section (planning.py lines 184-204): both branches return
"0.0"; the Section Ledger is never consulted. -/
def find_next_section (guide_json : Guide) : String :=
  if guide_json.chapters.length > 0 then
    match guide_json.chapters.head? with
    | some chapter => if chapter.sections.length > 0 then "0.0" else "0.0"
    | none => "0.0"
  else "0.0"

/-- Persisted orchestrator state (models.py lines 31-63), with the phase kept
as the raw string the str-enum comparison operates on. -/
structure OrchestratorState where
  session_id : String
  phase : String
  current_section_id : Option String
deriving DecidableEq, Repr

/-- Embeds the no-section branch of handle_planning_phase (planning.py lines
100-131) restricted to its state effect: current_section_id is set to
find_next_section(guide); the prompt generation and memory writes are external
collaborator calls. -/
def planning_select_section (guide_json : Guide) (state : OrchestratorState) : OrchestratorState :=
  { state with current_section_id := some (find_next_section guide_json) }

/-- Status of the ledger row for a chapter/section index pair. -/
def ledgerStatus (ledger : Ledger) (ci si : Nat) : Option String :=
  ((ledger : List SectionRow).find? (fun r => (r.chapter_idx = ci) && (r.section_idx = si))).map (·.status)

/-- The "chapterIndex.sectionIndex" section identifier of the spec glossary. -/
def sectionIdOfIdx (ci si : Nat) : String :=
  toString ci ++ "." ++ toString si

/-- Modelled from the spec: the Planning-phase selection rule of §4.5 — the
first Guide section in chapter-then-section order whose SectionRecord status is
pending. Written only to compare against find_next_section. -/
def specNextPendingSection (guide : Guide) (ledger : Ledger) : Option (Nat × Nat) :=
  (guide.chapters.enum.flatMap (fun p => p.2.sections.enum.map (fun q => (p.1, q.1)))).find?
    (fun pr => ledgerStatus ledger pr.1 pr.2 = some "pending")

/-- The serialized orchestrator-state dictionary stored in the session row's
state_json column. Only the three recognized keys are modelled; each field is
none when the key is absent. current_section_id distinguishes an absent key
(outer none) from a stored null (some none). -/
structure StateDict where
  session_id : Option String
  phase : Option String
  current_section_id : Option (Option String)
deriving DecidableEq, Repr

/-- Python truthiness of the stored dictionary: an empty dict is falsy. -/
def stateDictTruthy (d : StateDict) : Bool :=
  d.session_id.isSome || d.phase.isSome || d.current_section_id.isSome

/-- Embeds OrchestratorState.__init__ with default arguments (models.py lines
45-63): fresh intake state with no section. -/
def OrchestratorState.new (session_id : String) : OrchestratorState :=
  { session_id := session_id, phase := "intake", current_section_id := none }

/-- Embeds OrchestratorState.to_dict (models.py lines 65-76). -/
def OrchestratorState.to_dict (st : OrchestratorState) : StateDict :=
  { session_id := some st.session_id, phase := some st.phase,
    current_section_id := some st.current_section_id }

/-- Embeds OrchestratorState.from_dict (models.py lines 78-93): each of the
three keys is read with a bare indexing operation, so a missing key raises
KeyError; no validation is applied to the phase value. -/
def OrchestratorState.from_dict (d : StateDict) : Except PyError OrchestratorState :=
  match d.session_id, d.phase, d.current_section_id with
  | some s, some p, some c => .ok { session_id := s, phase := p, current_section_id := c }
  | _, _, _ => .error .keyError

/-- The session row (app/db/models/session.py) restricted to the fields the
orchestrator touches; state_json holds the persisted orchestrator state. -/
structure SessionRow where
  guide_json : Guide
  intake_json : List (String × String)
  intake_done : Bool
  state_json : Option StateDict
deriving DecidableEq, Repr

/-- The session table keyed by session_id. -/
abbrev Store := List (String × SessionRow)

/-- Embeds get_session_by_id (session_service.py lines 44-55). -/
def lookupSession (store : Store) (sid : String) : Option SessionRow :=
  (store : List (String × SessionRow)).lookup sid

/-- Embeds load_state_from_db (state_db.py lines 74-112): none when the
session is missing, when no state is stored, or when the stored dict is falsy
(empty). -/
def load_state_from_db (store : Store) (sid : String) : Option StateDict :=
  match lookupSession store sid with
  | none => none
  | some row =>
    match row.state_json with
    | none => none
    | some d => if stateDictTruthy d then some d else none

/-- Embeds save_state_to_db (state_db.py lines 16-71): overwrite the session
row's state_json, a no-op when the session does not exist. -/
def save_state_to_db (store : Store) (sid : String) (d : StateDict) : Store :=
  match lookupSession store sid with
  | none => store
  | some _ =>
    (store : List (String × SessionRow)).map
      (fun p => if p.1 = sid then (p.1, { p.2 with state_json := some d }) else p)

/-- A phase handler response: the message plus the metadata fields the
orchestrator responses carry. merror is the metadata "error" entry; msection
is the metadata "section_id" entry (outer none when the key is absent, some
none when it is an explicit null). -/
structure OrchResponse where
  message : String
  mphase : String
  merror : Option String
  msection : Option (Option String)
deriving DecidableEq, Repr

/-- The four phase handlers (intake.py, planning.py, execution.py,
reflection.py), taken as parameters: each consumes the session row, the loaded
state and the user message, and produces a response plus an updated state. -/
structure PhaseHandlers where
  intake : SessionRow → OrchestratorState → String → OrchResponse × OrchestratorState
  planning : SessionRow → OrchestratorState → String → OrchResponse × OrchestratorState
  execution : SessionRow → OrchestratorState → String → OrchResponse × OrchestratorState
  reflection : SessionRow → OrchestratorState → String → OrchResponse × OrchestratorState

/-- Embeds process_chat_message (core.py lines 25-119): session lookup with an
error response when absent; the reserved force-complete-intake control message,
which loads (or freshly creates) the state, sets its phase to planning
unconditionally and persists it; otherwise state load with a fresh-intake
fallback only when nothing truthy is stored, dispatch on the phase string with
an unknown-phase error response in the final else, and a save of the updated
state in every dispatch branch. -/
def process_chat_message (h : PhaseHandlers) (store : Store) (sid msg : String) :
    Except PyError (OrchResponse × Store) :=
  match lookupSession store sid with
  | none =>
    .ok ({ message := "Session with ID " ++ sid ++ " not found",
           mphase := "error", merror := some "session_not_found", msection := none }, store)
  | some session =>
    if pyLower (pyStrip msg) = "force-complete-intake" then
      let st? : Except PyError OrchestratorState :=
        match load_state_from_db store sid with
        | some d => OrchestratorState.from_dict d
        | none => .ok (OrchestratorState.new sid)
      match st? with
      | .error e => .error e
      | .ok st =>
        let st := { st with phase := "planning" }
        let store := save_state_to_db store sid st.to_dict
        .ok ({ message := "Intake phase forced to complete. Transitioning to planning phase.",
               mphase := "planning", merror := none, msection := some none }, store)
    else
      let st? : Except PyError OrchestratorState :=
        match load_state_from_db store sid with
        | some d => OrchestratorState.from_dict d
        | none => .ok (OrchestratorState.new sid)
      match st? with
      | .error e => .error e
      | .ok st =>
        let pr : OrchResponse × OrchestratorState :=
          if st.phase = "intake" then h.intake session st msg
          else if st.phase = "planning" then h.planning session st msg
          else if st.phase = "execution" then h.execution session st msg
          else if st.phase = "reflection" then h.reflection session st msg
          else
            ({ message := "Unknown phase: " ++ st.phase,
               mphase := "error", merror := some "unknown_phase", msection := none }, st)
        let store := save_state_to_db store sid pr.2.to_dict
        .ok (pr.1, store)

/-- One entry returned by the memory-store search, as the retrieval loop sees
it: either not a dict, or a dict whose "content" key is absent or holds a
string. -/
inductive MemResult where
  | notDict
  | dict (content : Option String)
deriving DecidableEq, Repr

/-- Outcome of the memory-store search call: the client raising, returning a
non-list value, or returning a list of entries. -/
inductive MemSearch where
  | raises
  | nonList
  | results (rs : List MemResult)
deriving DecidableEq, Repr

/-- Model of Python's `key in value` on a JSON value: key membership for
dicts, element membership for lists, substring test for strings, TypeError for
the remaining types. -/
def pyInKey (key : String) : Json → Except PyError Bool
  | .obj fs => .ok ((fs.lookup key).isSome)
  | .arr xs => .ok (xs.any (fun x => match x with | .str s => s = key | _ => false))
  | .str s => .ok (strContainsSub s key)
  | _ => .error .typeError

/-- Embeds the retrieval loop of get_bullet_points_from_memory (execution.py
lines 133-144): skip non-dicts and entries without content, skip entries whose
content fails json.loads (the except JSONDecodeError: continue), stop at the
first parsed content containing a "bullet_points" key and take its value;
a TypeError from the membership test or the indexing (non-dict parsed
content) escapes the loop into the outer handler. -/
def bulletLoop : List MemResult → Except PyError (Option Json)
  | [] => .ok none
  | .notDict :: rest => bulletLoop rest
  | .dict none :: rest => bulletLoop rest
  | .dict (some c) :: rest =>
    match jsonParse c with
    | none => bulletLoop rest
    | some j =>
      match pyInKey "bullet_points" j with
      | .error e => .error e
      | .ok true =>
        match j with
        | .obj fs => .ok (fs.lookup "bullet_points")
        | _ => .error .typeError
      | .ok false => bulletLoop rest

/-- The fixed default bullet list of get_bullet_points_from_memory. -/
def defaultBullets : Json :=
  .arr [.str "Introduction to the topic", .str "Main arguments",
        .str "Supporting evidence", .str "Conclusion"]

/-- Embeds get_bullet_points_from_memory (execution.py lines 112-153): any
exception from the search or the loop is caught, leaving bullet_points empty;
a falsy retrieved value also counts as absent; in every such case the fixed
default list is returned. -/
def get_bullet_points_from_memory (search : MemSearch) : Json :=
  let found : Option Json :=
    match search with
    | .raises => none
    | .nonList => none
    | .results rs =>
      match bulletLoop rs with
      | .error _ => none
      | .ok v => v
  match found with
  | some v => if jsonTruthy v then v else defaultBullets
  | none => defaultBullets

/-- Per-entry condition under which the retrieval loop cannot produce a truthy
bullet list from an entry: it is not a dict, has no content, its content fails
to parse, parses to a non-dict (the membership or indexing then feeds the
outer handler), or parses to a dict whose "bullet_points" value is absent or
falsy. -/
def memResultNoBullets : MemResult → Bool
  | .notDict => true
  | .dict none => true
  | .dict (some c) =>
    match jsonParse c with
    | none => true
    | some (.obj fs) =>
      match fs.lookup "bullet_points" with
      | none => true
      | some v => !jsonTruthy v
    | some _ => true

/-- Occurrence of a needle anywhere in a Guide: in its title or in any chapter,
section or subsection title or requirements. -/
def guideMentions (g : Guide) (needle : String) : Bool :=
  strContainsSub g.title needle ||
    g.chapters.any (fun ch =>
      strContainsSub ch.title needle ||
        ch.sections.any (fun s =>
          strContainsSub s.title needle || strContainsSub s.requirements needle ||
            s.subsections.any (fun sub =>
              strContainsSub sub.title needle || strContainsSub sub.requirements needle)))

/-- The concrete input of the heuristic-parser testable property. -/
def c6Input : String := "1. Introduction\nsome content\n1.1 Background\nmore content"

/-- The input that separates per-stage re-parsing from a single final re-parse:
a trailing comma (repaired by the first stage) and a string value containing
two single quotes (broken by the third stage). -/
def c7Input : String := "\x7b\"x\": \"a" ++ apos ++ "b" ++ apos ++ "c\",\x7d"

/-- A Guide whose chapters have section counts [2, 1, 3]. -/
def g213 : Guide :=
  { title := "G",
    chapters := [
      { title := "C1", sections := [{ title := "S11", requirements := "", subsections := [] },
                                    { title := "S12", requirements := "", subsections := [] }] },
      { title := "C2", sections := [{ title := "S21", requirements := "", subsections := [] }] },
      { title := "C3", sections := [{ title := "S31", requirements := "", subsections := [] },
                                    { title := "S32", requirements := "", subsections := [] },
                                    { title := "S33", requirements := "", subsections := [] }] }] }

/-- A two-section Guide used for the selection counterexample. -/
def cexGuide : Guide :=
  { title := "G",
    chapters := [{ title := "C1", sections := [{ title := "S1", requirements := "", subsections := [] },
                                               { title := "S2", requirements := "", subsections := [] }] }] }

/-- A ledger in which section (0,0) is already saved and (0,1) is pending. -/
def cexLedger : Ledger := [⟨0, 0, "saved"⟩, ⟨0, 1, "pending"⟩]

/-- Phase handlers that echo a fixed message and leave the state unchanged,
used to instantiate the handler-parametric theorems at concrete inputs. -/
def constHandlers : PhaseHandlers :=
  { intake := fun _ st _ => ({ message := "i", mphase := "intake", merror := none, msection := none }, st),
    planning := fun _ st _ => ({ message := "p", mphase := "planning", merror := none, msection := none }, st),
    execution := fun _ st _ => ({ message := "e", mphase := "execution", merror := none, msection := none }, st),
    reflection := fun _ st _ => ({ message := "r", mphase := "reflection", merror := none, msection := none }, st) }

/-- A session row persisted in the Execution phase. -/
def cexExecRow : SessionRow :=
  { guide_json := cexGuide, intake_json := [], intake_done := false,
    state_json := some (OrchestratorState.to_dict
      { session_id := "s", phase := "execution", current_section_id := some "0.0" }) }

/-- A one-session store whose session "s" is in the Execution phase. -/
def cexExecStore : Store := [("s", cexExecRow)]

/-- The phase recorded in the persisted state dictionary of a session. -/
def persistedPhase (store : Store) (sid : String) : Option String :=
  ((lookupSession store sid).bind (·.state_json)).bind (·.phase)

/-- A stored state dictionary missing its session_id key. -/
def malformedDict : StateDict :=
  { session_id := none, phase := some "intake", current_section_id := some none }

/-- A session row with the malformed stored state. -/
def malformedRow : SessionRow :=
  { guide_json := cexGuide, intake_json := [], intake_done := false,
    state_json := some malformedDict }

/-- A session row persisted with a phase string outside the four known
phases. -/
def weirdPhaseRow : SessionRow :=
  { guide_json := cexGuide, intake_json := [], intake_done := false,
    state_json := some (OrchestratorState.to_dict
      { session_id := "w", phase := "reviewing", current_section_id := none }) }

/-- A store holding one session with a malformed state and one with an unknown
phase string. -/
def malformedStore : Store := [("m", malformedRow), ("w", weirdPhaseRow)]

/-- A session row with no stored orchestrator state. -/
def freshRow : SessionRow :=
  { guide_json := cexGuide, intake_json := [], intake_done := false, state_json := none }

/-- A one-session store whose session has no stored state. -/
def freshStore : Store := [("f", freshRow)]

/-- Round trip of the state serialization: from_dict inverts to_dict. -/
theorem from_dict_to_dict (st : OrchestratorState) :
    OrchestratorState.from_dict st.to_dict = .ok st := rfl

/-- A serialized state dictionary is truthy (all three keys are present). -/
theorem stateDictTruthy_to_dict (st : OrchestratorState) :
    stateDictTruthy st.to_dict = true := rfl

/-- Elements of updateFirst p f l come from l, either unchanged or through
f. -/
theorem updateFirst_mem (p : α → Bool) (f : α → α) (l : List α) (a : α)
    (h : a ∈ updateFirst p f l) : a ∈ l ∨ ∃ b, b ∈ l ∧ a = f b := by
  induction l with
  | nil => simp [updateFirst] at h
  | cons x rest ih =>
    simp only [updateFirst] at h
    by_cases hp : p x = true
    · rw [if_pos hp] at h
      rcases List.mem_cons.mp h with h1 | h2
      · exact Or.inr ⟨x, List.mem_cons_self x rest, h1⟩
      · exact Or.inl (List.mem_cons_of_mem x h2)
    · rw [if_neg hp] at h
      rcases List.mem_cons.mp h with h1 | h2
      · exact Or.inl (by simp [h1])
      · rcases ih h2 with h3 | ⟨b, hb, hab⟩
        · exact Or.inl (List.mem_cons_of_mem x h3)
        · exact Or.inr ⟨b, List.mem_cons_of_mem x hb, hab⟩

/-- When every search entry satisfies memResultNoBullets, the retrieval loop
produces no truthy bullet value: it ends empty, raises, or yields a falsy
value. -/
theorem bulletLoop_no_bullets (rs : List MemResult)
    (hall : ∀ r ∈ rs, memResultNoBullets r = true) :
    bulletLoop rs = .ok none ∨ (∃ e, bulletLoop rs = .error e) ∨
      ∃ v, bulletLoop rs = .ok (some v) ∧ jsonTruthy v = false := by
  induction rs with
  | nil => exact Or.inl rfl
  | cons r rest ih =>
    have hr := hall r (List.mem_cons_self r rest)
    have hrest := ih (fun x hx => hall x (List.mem_cons_of_mem r hx))
    cases r with
    | notDict => simpa [bulletLoop] using hrest
    | dict c =>
      cases c with
      | none => simpa [bulletLoop] using hrest
      | some s =>
        simp only [bulletLoop]
        cases hjp : jsonParse s with
        | none => simpa [hjp] using hrest
        | some j =>
          simp only [hjp]
          simp only [memResultNoBullets, hjp] at hr
          cases j with
          | obj fs =>
            simp only [pyInKey]
            cases hlk : fs.lookup "bullet_points" with
            | none => simpa [hlk] using hrest
            | some v =>
              have hr2 : jsonTruthy v = false := by simpa [hlk] using hr
              exact Or.inr (Or.inr ⟨v, rfl, hr2⟩)
          | arr xs =>
            simp only [pyInKey]
            by_cases hany : xs.any (fun x => match x with | .str s => s = "bullet_points" | _ => false) = true
            · rw [hany]
              exact Or.inr (Or.inl ⟨.typeError, rfl⟩)
            · rw [Bool.not_eq_true] at hany
              rw [hany]
              simpa using hrest
          | str t =>
            simp only [pyInKey]
            by_cases hc : strContainsSub t "bullet_points" = true
            · rw [hc]
              exact Or.inr (Or.inl ⟨.typeError, rfl⟩)
            · rw [Bool.not_eq_true] at hc
              rw [hc]
              simpa using hrest
          | null => exact Or.inr (Or.inl ⟨.typeError, rfl⟩)
          | bool b => exact Or.inr (Or.inl ⟨.typeError, rfl⟩)
          | num n => exact Or.inr (Or.inl ⟨.typeError, rfl⟩)

/-- Claim C1: the spec asserts that parse_guide_file returns a Guide-shaped
structure with at least one chapter and never raises, for every byte input
including empty bytes. The code instead raises: extract_text_from_file returns
bytes, parse_text_to_guide_structure splits them with a str separator
(TypeError), and parse_guide_file re-raises that as ValueError — shown here at
the empty input and at a plain-text input, for every extraction collaborator. -/
theorem parse_guide_file_raises_on_empty_bytes :
    ∀ ext : Collaborators,
      parse_guide_file ext [] = .error .valueError ∧
      parse_guide_file ext ("plain text guide".data.map Char.toNat) = .error .valueError :=
  fun _ => ⟨rfl, rfl⟩

/-- Claim C2 (counterexample): with section (0,0) already saved and (0,1)
pending, the spec's selection rule picks (0,1) ("0.1"), but find_next_section
still returns "0.0" — it never consults the ledger. -/
theorem find_next_section_ignores_pending_cex :
    find_next_section cexGuide = "0.0" ∧
    specNextPendingSection cexGuide cexLedger = some (0, 1) ∧
    sectionIdOfIdx 0 1 = "0.1" ∧ ("0.0" : String) ≠ "0.1" :=
  ⟨rfl, by decide, rfl, by decide⟩

/-- Claim C2 (amended): in the Planning phase with no section selected the
orchestrator always selects section id "0.0", whatever the guide and the
ledger state: find_next_section returns "0.0" for every guide, and the
planning branch sets current_section_id to it. -/
theorem find_next_section_always_zero_zero :
    ∀ (g : Guide) (st : OrchestratorState),
      find_next_section g = "0.0" ∧
      (planning_select_section g st).current_section_id = some "0.0" := by
  intro g st
  have h : find_next_section g = "0.0" := by
    unfold find_next_section
    rcases g.chapters.head? with _ | ch <;> simp
  exact ⟨h, by simp [planning_select_section, h]⟩

/-- Claim C3 (counterexample): the Execution phase writes status "draft", not
"drafted" — a value outside the claimed {pending, drafted, saved} set — the
Reflection phase writes "complete", not "saved", and running the Execution
write again on a completed section regresses it to "draft". -/
theorem section_status_draft_cex :
    save_draft_to_database [⟨0, 0, "pending"⟩] "0.0" "x" = [⟨0, 0, "draft"⟩] ∧
    ("draft" : String) ∉ (["pending", "drafted", "saved"] : List String) ∧
    (mark_section_complete [⟨0, 0, "draft"⟩] "0.0").1 = [⟨0, 0, "complete"⟩] ∧
    save_draft_to_database [⟨0, 0, "complete"⟩] "0.0" "y" = [⟨0, 0, "draft"⟩] :=
  ⟨by decide, by decide, by decide, by decide⟩

/-- Claim C3 (amended): the ledger writes of the phase handlers set the
affected row's status to the literal "draft" (Execution), "complete"
(Reflection) or "saved" (the explicit save endpoint), unconditionally on any
previous status, and leave every other row unchanged; the reachable status
values are therefore {pending, draft, complete, saved}, and a status can move
backwards (complete to draft) when Execution runs again on the section. -/
theorem section_status_updates_amended :
    (∀ (ledger : Ledger) (section_id content : String) (r : SectionRow),
        r ∈ save_draft_to_database ledger section_id content →
        r ∈ ledger ∨ r.status = "draft") ∧
    (∀ (ledger : Ledger) (section_id : String) (r : SectionRow),
        r ∈ (mark_section_complete ledger section_id).1 →
        r ∈ ledger ∨ r.status = "complete") ∧
    (∀ (ledger : Ledger) (ci si : Nat) (r : SectionRow),
        r ∈ (save_section ledger ci si).1 →
        r ∈ ledger ∨ r.status = "saved") := by
  refine ⟨?_, ?_, ?_⟩
  · intro ledger section_id content r hr
    unfold save_draft_to_database at hr
    rcases hp : sectionIdToIdx section_id with _ | ⟨c, s⟩
    · rw [hp] at hr
      exact Or.inl hr
    · rw [hp] at hr
      rcases updateFirst_mem _ _ _ _ hr with h1 | ⟨b, _, hab⟩
      · exact Or.inl h1
      · exact Or.inr (by rw [hab])
  · intro ledger section_id r hr
    unfold mark_section_complete at hr
    rcases hp : sectionIdToIdx section_id with _ | ⟨c, s⟩
    · rw [hp] at hr
      exact Or.inl hr
    · simp only [hp] at hr
      by_cases hany : ledger.any (rowMatches c s) = true
      · rw [if_pos hany] at hr
        rcases updateFirst_mem _ _ _ _ hr with h1 | ⟨b, _, hab⟩
        · exact Or.inl h1
        · exact Or.inr (by rw [hab])
      · rw [if_neg hany] at hr
        exact Or.inl hr
  · intro ledger ci si r hr
    unfold save_section at hr
    by_cases hany : ledger.any (fun x => (x.chapter_idx = ci) && (x.section_idx = si)) = true
    · rw [if_pos hany] at hr
      rcases updateFirst_mem _ _ _ _ hr with h1 | ⟨b, _, hab⟩
      · exact Or.inl h1
      · exact Or.inr (by rw [hab])
    · rw [if_neg hany] at hr
      exact Or.inl hr

/-- Claim C3 (witness): the amended theorem applied at a concrete ledger. -/
theorem section_status_updates_amended_witness :
    (⟨0, 0, "draft"⟩ : SectionRow) ∈ ([⟨0, 0, "pending"⟩] : Ledger) ∨
    (SectionRow.mk 0 0 "draft").status = "draft" :=
  section_status_updates_amended.1 [⟨0, 0, "pending"⟩] "0.0" "x" ⟨0, 0, "draft"⟩ (by decide)

/-- Claim C4 (counterexample): a session persisted in the Execution phase is
not left unchanged by the force-complete control message — its persisted phase
becomes planning. -/
theorem force_complete_changes_execution_phase_cex :
    persistedPhase cexExecStore "s" = some "execution" ∧
    (process_chat_message constHandlers cexExecStore "s" "force-complete-intake").map
      (fun pr => persistedPhase pr.2 "s") = .ok (some "planning") ∧
    ("planning" : String) ≠ "execution" :=
  ⟨rfl, rfl, by decide⟩

/-- Claim C4 (amended): processing the reserved force-complete control message
sets the persisted phase to planning unconditionally, from every phase — the
persisted phase is left unchanged only when it is already planning; the claim
that only Intake responds to the message does not hold. -/
theorem force_complete_sets_planning :
    ∀ (h : PhaseHandlers) (store : Store) (sid msg : String) (row : SessionRow)
      (st : OrchestratorState),
      lookupSession store sid = some row →
      pyLower (pyStrip msg) = "force-complete-intake" →
      row.state_json = some st.to_dict →
      process_chat_message h store sid msg =
        .ok ({ message := "Intake phase forced to complete. Transitioning to planning phase.",
               mphase := "planning", merror := none, msection := some none },
             save_state_to_db store sid
               (OrchestratorState.to_dict { st with phase := "planning" })) := by
  intro h store sid msg row st hlok hmsg hrow
  simp only [process_chat_message, hlok]
  rw [if_pos hmsg]
  simp only [load_state_from_db, hlok, hrow]
  rw [if_pos (stateDictTruthy_to_dict st)]
  simp only [from_dict_to_dict]

/-- Claim C4 (witness): the amended theorem applied to the concrete
Execution-phase store. -/
theorem force_complete_sets_planning_witness :
    process_chat_message constHandlers cexExecStore "s" "force-complete-intake" =
      .ok ({ message := "Intake phase forced to complete. Transitioning to planning phase.",
             mphase := "planning", merror := none, msection := some none },
           save_state_to_db cexExecStore "s"
             (OrchestratorState.to_dict
               { session_id := "s", phase := "planning", current_section_id := some "0.0" })) :=
  force_complete_sets_planning constHandlers cexExecStore "s" "force-complete-intake"
    cexExecRow { session_id := "s", phase := "execution", current_section_id := some "0.0" }
    rfl rfl rfl

/-- Claim C5 (counterexample): a stored state dictionary missing its
session_id key makes the turn raise KeyError instead of falling back to a
fresh Intake state, and a phase string outside the four known phases produces
an unknown-phase error response to the user. -/
theorem malformed_state_not_recovered_cex :
    process_chat_message constHandlers malformedStore "m" "hello" = .error .keyError ∧
    (process_chat_message constHandlers malformedStore "w" "hello").map
      (fun pr => (pr.1.mphase, pr.1.merror)) = .ok ("error", some "unknown_phase") :=
  ⟨rfl, rfl⟩

/-- Claim C5 (amended): process_chat_message falls back to a fresh Intake
state only when no truthy state dictionary is stored for the session; a stored
dictionary missing one of its keys (here session_id) raises KeyError out of
the turn, rather than being recovered. -/
theorem state_fallback_only_when_missing :
    (∀ (h : PhaseHandlers) (store : Store) (sid msg : String) (row : SessionRow),
        lookupSession store sid = some row →
        row.state_json = none →
        pyLower (pyStrip msg) ≠ "force-complete-intake" →
        process_chat_message h store sid msg =
          .ok ((h.intake row (OrchestratorState.new sid) msg).1,
               save_state_to_db store sid
                 (h.intake row (OrchestratorState.new sid) msg).2.to_dict)) ∧
    (∀ (h : PhaseHandlers) (store : Store) (sid msg : String) (row : SessionRow)
        (d : StateDict),
        lookupSession store sid = some row →
        row.state_json = some d →
        stateDictTruthy d = true →
        d.session_id = none →
        process_chat_message h store sid msg = .error .keyError) := by
  constructor
  · intro h store sid msg row hlok hrow hmsg
    simp only [process_chat_message, hlok]
    rw [if_neg hmsg]
    simp only [load_state_from_db, hlok, hrow]
    rfl
  · intro h store sid msg row d hlok hrow htruthy hsid
    have hfd : OrchestratorState.from_dict d = .error .keyError := by
      unfold OrchestratorState.from_dict
      rw [hsid]
    simp only [process_chat_message, hlok]
    by_cases hm : pyLower (pyStrip msg) = "force-complete-intake"
    · rw [if_pos hm]
      simp only [load_state_from_db, hlok, hrow, if_pos htruthy, hfd]
    · rw [if_neg hm]
      simp only [load_state_from_db, hlok, hrow, if_pos htruthy, hfd]

/-- Claim C5 (witness): the amended theorem applied to a concrete store with
no stored state and to the concrete malformed store. -/
theorem state_fallback_only_when_missing_witness :
    (process_chat_message constHandlers freshStore "f" "hello" =
      .ok ((constHandlers.intake freshRow (OrchestratorState.new "f") "hello").1,
           save_state_to_db freshStore "f"
             (constHandlers.intake freshRow (OrchestratorState.new "f") "hello").2.to_dict)) ∧
    process_chat_message constHandlers malformedStore "m" "bye" = .error .keyError :=
  ⟨state_fallback_only_when_missing.1 constHandlers freshStore "f" "hello" freshRow rfl rfl
     (by decide),
   state_fallback_only_when_missing.2 constHandlers malformedStore "m" "bye" malformedRow
     malformedDict rfl rfl rfl rfl⟩

/-- Claim C6 (counterexample): on the spec's test text the chapter-level
leftover line "some content" is not retained anywhere in the output — the
flush before "1.1 Background" runs with no open section or subsection and
drops the buffer — although the chapter/section/requirements structure is as
claimed. -/
theorem heuristic_parser_drops_leftover_cex :
    (parseTextToGuideCore c6Input).chapters.length = 1 ∧
    ((parseTextToGuideCore c6Input).chapters.headD ⟨"", []⟩).sections.length = 1 ∧
    guideMentions (parseTextToGuideCore c6Input) "some content" = false :=
  ⟨by decide, by decide, by decide⟩

/-- Claim C6 (amended): on the text "1. Introduction\nsome content\n1.1
Background\nmore content" the heuristic parser returns one chapter titled
"1. Introduction" whose one section is titled "1.1 Background" with
requirements "more content"; the chapter-level leftover "some content" is
discarded (content accumulated before any section opens is dropped by the
flush, and no placeholder section is synthesized because the chapter has an
explicit section). -/
theorem heuristic_parser_example_amended :
    parseTextToGuideCore c6Input =
      { title := "1. Introduction",
        chapters := [{ title := "1. Introduction",
                       sections := [{ title := "1.1 Background",
                                      requirements := "more content",
                                      subsections := [] }] }] } ∧
    guideMentions (parseTextToGuideCore c6Input) "some content" = false :=
  ⟨by decide, by decide⟩

/-- Claim C7 (counterexample): on an input whose only defect is a trailing
comma, re-attempting the parse after the first stage would succeed with the
string value intact, but _sanitize_json still applies the quote-normalization
stage, which corrupts the single quotes inside the string value and makes the
single final re-parse fail. -/
theorem sanitize_no_per_stage_reparse_cex :
    _sanitize_json c7Input = .error "JSONDecodeError" ∧
    sanitizeJsonStagedSpec c7Input =
      .ok (.obj [("x", .str ("a" ++ apos ++ "b" ++ apos ++ "c"))]) :=
  ⟨rfl, rfl⟩

/-- Claim C7 (amended): after a failed direct parse _sanitize_json applies all
three repair stages in order and re-attempts the parse exactly once, after the
final stage — never between stages — so an input that becomes parseable after
an earlier stage alone still has the later stages applied to it; a successful
direct parse is returned unrepaired. -/
theorem sanitize_single_reparse_after_all_stages :
    ∀ text : String,
      (∀ j, jsonParse (trimToBraces (pyStrip text)) = some j →
        _sanitize_json text = .ok j) ∧
      (jsonParse (trimToBraces (pyStrip text)) = none →
        _sanitize_json text =
          match jsonParse (fixSingleQuotes (quoteBareKeys (fixTrailingCommaBracket
              (fixTrailingCommaBrace (trimToBraces (pyStrip text)))))) with
          | some j => .ok j
          | none => .error "JSONDecodeError") := by
  intro text
  constructor
  · intro j hj
    simp only [_sanitize_json, hj]
  · intro hn
    simp only [_sanitize_json, hn]

/-- Claim C7 (witness): the amended theorem applied at a directly parseable
input. -/
theorem sanitize_single_reparse_witness :
    _sanitize_json "\x7b\x7d" = .ok (Json.obj []) :=
  (sanitize_single_reparse_after_all_stages "\x7b\x7d").1 (Json.obj []) rfl

/-- Claim C8: the spec asserts that session creation initializes exactly six
pending SectionRecords for a [2, 1, 3] guide; the code creates none, because
_initialize_sections passes title and content keyword arguments that the
mapped Section class does not declare, so the constructor raises TypeError on
the first record and the bare except swallows it. The spec-side initialization
of the same guide yields exactly the six claimed index pairs. -/
theorem init_sections_creates_no_rows :
    _init_sections g213 = [] ∧
    specInitSectionPairs g213 = [(0, 0), (0, 1), (1, 0), (2, 0), (2, 1), (2, 2)] :=
  ⟨by decide, by decide⟩

/-- Claim C9: for a session id with no stored session, process_chat_message
returns the session-not-found response — metadata phase "error" and error
"session_not_found" — without raising and without creating or persisting any
orchestrator state (the store is returned unchanged). -/
theorem process_chat_message_session_not_found :
    ∀ (h : PhaseHandlers) (store : Store) (sid msg : String),
      lookupSession store sid = none →
      process_chat_message h store sid msg =
        .ok ({ message := "Session with ID " ++ sid ++ " not found",
               mphase := "error", merror := some "session_not_found", msection := none },
             store) := by
  intro h store sid msg hnone
  simp only [process_chat_message, hnone]

/-- Claim C9 (witness): the theorem applied to the empty store. -/
theorem process_chat_message_session_not_found_witness :
    process_chat_message constHandlers [] "nope" "hi" =
      .ok ({ message := "Session with ID " ++ "nope" ++ " not found",
             mphase := "error", merror := some "session_not_found", msection := none },
           []) :=
  process_chat_message_session_not_found constHandlers [] "nope" "hi" rfl

/-- Claim C10: bullet-point retrieval never propagates an exception and falls
back to the fixed four-element default list whenever the memory search raises,
returns a non-list, or returns only entries from which no truthy bullet list
can be extracted (non-dicts, missing or unparseable content, non-dict parsed
content, or a missing/falsy bullet_points value). -/
theorem bullet_points_default_fallback :
    get_bullet_points_from_memory .raises = defaultBullets ∧
    get_bullet_points_from_memory .nonList = defaultBullets ∧
    ∀ rs : List MemResult, (∀ r ∈ rs, memResultNoBullets r = true) →
      get_bullet_points_from_memory (.results rs) = defaultBullets := by
  refine ⟨rfl, rfl, ?_⟩
  intro rs hall
  rcases bulletLoop_no_bullets rs hall with h | ⟨e, h⟩ | ⟨v, h, hv⟩
  · simp [get_bullet_points_from_memory, h]
  · simp [get_bullet_points_from_memory, h]
  · simp [get_bullet_points_from_memory, h, hv]

/-- Claim C10 (witness): the theorem applied to a search result holding an
unparseable entry, a non-dict entry, and an entry with an empty bullet
list. -/
theorem bullet_points_default_fallback_witness :
    get_bullet_points_from_memory
      (.results [.dict (some "not json"), .notDict,
                 .dict (some "\x7b\"bullet_points\": []\x7d")]) = defaultBullets :=
  bullet_points_default_fallback.2.2 _ (by decide)
